import Mathlib

/-!
Verification development for src/services/telegramwiper.js.

The file embeds the second (complete) variant of the Telegram wiper engine
(lines 63-478 of the source) together with the legacy guarded entry point
(lines 7-11).  Network calls are the only suspension points of the JS code;
they are modelled by explicit environment records supplying each call's
outcome.  Machine state that the JS module keeps in module-level variables
(nextUpdateOffset, pollingActive, isWiping, pollingTimeout, trackedMessages,
autoWipeSchedule, currentCronJob) is collected into an EngineState record.
-/

namespace TelegramWiper

set_option maxRecDepth 40000

/-- MAX_TRACKED_PER_CHAT safety cap (source line 82). -/
def MAX_TRACKED_PER_CHAT : Nat := 500

/-- trackedMessages : Map chatId -> Array of message ids (source line 81), modelled
extensionally as a function from the numeric chat id to an optional bucket.  The JS
Map is keyed by String(chatId); decimal rendering is injective on numeric ids, so a
Nat-keyed map is an equivalent model. -/
abbrev Index : Type := Nat → Option (List Nat)

def emptyIndex : Index := fun _ => none

def Index.set (idx : Index) (c : Nat) (b : List Nat) : Index :=
  fun c' => if c' = c then some b else idx c'

def Index.del (idx : Index) (c : Nat) : Index :=
  fun c' => if c' = c then none else idx c'

/-- trackedMessages.get(key) ?? [] view of one chat's bucket. -/
def getBucket (idx : Index) (c : Nat) : List Nat := (idx c).getD []

/-- trackMessage (source lines 84-95).  messageId = 0 models the JS falsy guard
`if (!messageId) return;`.  The code pushes unconditionally and then trims the
oldest entries with `arr.splice(0, arr.length - MAX_TRACKED_PER_CHAT)`. -/
def trackMessage (idx : Index) (chatId messageId : Nat) : Index :=
  if messageId = 0 then idx
  else
    let arr := getBucket idx chatId
    let arr2 := arr ++ [messageId]
    let arr3 :=
      if arr2.length > MAX_TRACKED_PER_CHAT then
        arr2.drop (arr2.length - MAX_TRACKED_PER_CHAT)
      else arr2
    idx.set chatId arr3

/-- removeTrackedMessage (source lines 97-103): removes the first occurrence
(indexOf + splice), no-op when the chat has no bucket. -/
def removeTrackedMessage (idx : Index) (chatId messageId : Nat) : Index :=
  match idx chatId with
  | none => idx
  | some arr => idx.set chatId (arr.erase messageId)

/-- resetTrackedMessages (source lines 105-112): `if (pinnedId)` is JS truthiness,
so a 0 id behaves like null. -/
def resetTrackedMessages (idx : Index) (chatId : Nat) (pinnedId : Option Nat) : Index :=
  match pinnedId with
  | some p => if p = 0 then idx.del chatId else idx.set chatId [p]
  | none => idx.del chatId

/-- `[...new Set(tracked)]` (source line 200): first-occurrence order de-duplication. -/
def uniqueInOrder (l : List Nat) : List Nat :=
  l.foldl (fun acc x => if x ∈ acc then acc else acc ++ [x]) []

/- ---------------- JS string builtin models ---------------- -/

/-- JS String.prototype.trim, modelled over the character list. -/
def jsTrim (s : String) : String :=
  String.mk (((s.data.dropWhile Char.isWhitespace).reverse.dropWhile Char.isWhitespace).reverse)

def splitOnCharAux (sep : Char) : List Char → List Char → List String
  | [], cur => [String.mk cur.reverse]
  | c :: rest, cur =>
      if c = sep then String.mk cur.reverse :: splitOnCharAux sep rest []
      else splitOnCharAux sep rest (c :: cur)

/-- JS String.prototype.split with a one-character separator. -/
def jsSplitOnChar (sep : Char) (s : String) : List String :=
  splitOnCharAux sep s.data []

/-- text.split(" ") (source line 425). -/
def jsSplitOnSpace (s : String) : List String := jsSplitOnChar ' ' s

def charsPrefix : List Char → List Char → Bool
  | [], _ => true
  | _ :: _, [] => false
  | a :: as, b :: bs => a = b && charsPrefix as bs

/-- JS String.prototype.startsWith. -/
def jsStartsWith (s pre : String) : Bool := charsPrefix pre.data s.data

def natOfDigits (cs : List Char) : Nat :=
  cs.foldl (fun n c => n * 10 + (c.toNat - 48)) 0

def jsIsHexDigit (c : Char) : Bool :=
  c.isDigit || ('a' ≤ c && c ≤ 'f') || ('A' ≤ c && c ≤ 'F')

def hexDigitVal (c : Char) : Nat :=
  if c.isDigit then c.toNat - 48
  else if 'a' ≤ c && c ≤ 'f' then c.toNat - 97 + 10
  else c.toNat - 65 + 10

def natOfHexDigits (cs : List Char) : Nat :=
  cs.foldl (fun n c => n * 16 + hexDigitVal c) 0

/-- JS parseInt with no radix argument: skips leading whitespace, optional sign,
then either a 0x/0X prefix followed by the maximal hex-digit run, or the maximal
decimal-digit run; none models NaN (no digits after the prefix handling). -/
def jsParseInt (s : String) : Option Int :=
  let cs := s.data.dropWhile Char.isWhitespace
  let signDigits : Int × List Char :=
    match cs with
    | '-' :: rest => (-1, rest)
    | '+' :: rest => (1, rest)
    | rest => (1, rest)
  let hexRest : Option (List Char) :=
    match signDigits.2 with
    | '0' :: 'x' :: rest => some rest
    | '0' :: 'X' :: rest => some rest
    | _ => none
  match hexRest with
  | some rest =>
      let hs := rest.takeWhile jsIsHexDigit
      if hs.isEmpty then none
      else some (signDigits.1 * Int.ofNat (natOfHexDigits hs))
  | none =>
      let ds := signDigits.2.takeWhile Char.isDigit
      if ds.isEmpty then none
      else some (signDigits.1 * Int.ofNat (natOfDigits ds))

/-- JS Number() restricted to the strings reachable here (digit runs and the empty
string); none models NaN. -/
def jsNumberNat (s : String) : Option Nat :=
  if s.data = [] then some 0
  else if s.data.all Char.isDigit then some (natOfDigits s.data)
  else none

/-- Rendering of a `Number(...)` result inside a template literal; an absent
destructured component renders as "undefined", NaN as "NaN". -/
def jsNumberRender (o : Option String) : String :=
  match o with
  | none => "undefined"
  | some s =>
      match jsNumberNat s with
      | some n => toString n
      | none => "NaN"

/-- The regex test `/^\d{2}:\d{2}$/.test(time)` (source line 431). -/
def isHHMMshape (s : String) : Bool :=
  match s.data with
  | [a, b, c, d, e] => a.isDigit && b.isDigit && (c = ':') && d.isDigit && e.isDigit
  | _ => false

/- ---------------- Engine data model ---------------- -/

/-- Environment configuration (source lines 68-70): TELEGRAM_BOT_TOKEN and
TELEGRAM_CHAT_ID presence (JS truthiness of the env strings) plus the numeric
value of the configured chat id when present. -/
structure Config where
  botTokenPresent : Bool
  chatIdPresent : Bool
  chatId : Nat
deriving DecidableEq, Repr

/-- autoWipeSchedule = \x7b hours, time \x7d (source line 78).  hours is an Int
because the command path produces it with parseInt. -/
structure AutoWipeSchedule where
  hours : Int
  time : String
deriving DecidableEq, Repr

/-- The module-level mutable state of the engine (source lines 72-82):
nextUpdateOffset, pollingActive, isWiping, the pending pollingTimeout handle
(modelled as a Bool), trackedMessages, autoWipeSchedule, and the active
node-cron job (modelled by its cron expression; every job is bound to
wipeMessages). -/
structure EngineState where
  nextUpdateOffset : Nat
  pollingActive : Bool
  isWiping : Bool
  pollTimeoutSet : Bool
  index : Index
  autoWipeSchedule : AutoWipeSchedule
  currentCronJob : Option String

/-- Outcome of one HTTP fetch: the promise rejected (network error, `threw`)
or resolved with a response whose body had ok = true/false. -/
inductive FetchOutcome where
  | threw
  | completed (ok : Bool)
deriving DecidableEq, Repr

/-- Message kinds for the engine's outgoing chat messages; the literal texts of
the source are irrelevant to every claim, only which message is sent. -/
inductive MsgKind where
  | statusMsg
  | helpMsg
  | dashboardMsg
  | websiteMsg
  | setAutoWipeOk
  | setAutoWipeUsage
deriving DecidableEq, Repr

/-- Observable effects at the platform boundary. -/
inductive Effect where
  | deleteReq (chatId messageId : Nat)
  | wipeConfirmSent (messageId : Nat)
  | tempMsg (chatId : Nat) (kind : MsgKind) (deleteAfterMs : Nat) (result : Option Nat)
  | privateMsg (chatId : Nat) (result : Option Nat)
  | scheduleDelete (chatId messageId delayMs : Nat)
  | startupMsgReq
  | cronStopped (expr : String)
  | cronStarted (expr : String)
deriving DecidableEq, Repr

/-- One getUpdates entry: update_id plus the optional message / channel_post
payload used by the dispatch loop. -/
structure Msg where
  chatId : Option Nat
  message_id : Nat
  fromId : Nat
  text : Option String
  pinned_message : Option Nat
deriving DecidableEq, Repr

structure Update where
  update_id : Nat
  message : Option Msg
  channel_post : Option Msg
deriving DecidableEq, Repr

/-- `update.message || update.channel_post` (source line 317). -/
def jsOr (a b : Option Msg) : Option Msg :=
  match a with
  | some x => some x
  | none => b

/- ---------------- Environments for the suspension points ---------------- -/

/-- Platform responses consumed by one wipeMessages run: the raw
`data.result.pinned_message?.message_id` of getChat, the per-message outcome of
each deleteMessage fetch, and the confirmation sendMessage outcome
(some id when the fetch resolved with data.ok, none when it threw or !ok). -/
structure WipeEnv where
  pinned_message_id : Option Nat
  deleteOutcome : Nat → FetchOutcome
  confirmOutcome : Option Nat

/-- Platform responses consumed by one pollTelegram tick: the nested wipe
environment, plus the outcome of the k-th sendMessage issued from the dispatch
loop (temp or private; some id models a resolved fetch with data.ok). -/
structure PollEnv where
  wipeEnv : WipeEnv
  sendOutcome : Nat → Option Nat

/-- Platform responses consumed by startTelegramBot (source lines 455-477): whether
the online-notification fetch threw, and the getUpdates(null, 1) result. -/
structure StartEnv where
  onlineSendThrows : Bool
  initialUpdates : List Update

/- ---------------- Operations ---------------- -/

/-- getPinnedMessageId (source lines 137-146):
`data.result.pinned_message?.message_id || null`, with any error also yielding
null; an id of 0 is falsy and becomes null. -/
def getPinnedMessageId (env : WipeEnv) : Option Nat :=
  match env.pinned_message_id with
  | some m => if m = 0 then none else some m
  | none => none

/-- deleteMessage (source lines 149-160): issues the HTTP request and untracks the
id whenever the fetch resolved, without looking at the response body; a thrown
fetch is caught and leaves the index unchanged. -/
def deleteMessage (outcome : FetchOutcome) (idx : Index) (chatId message_id : Nat) :
    Index × List Effect :=
  match outcome with
  | .threw => (idx, [Effect.deleteReq chatId message_id])
  | .completed _ => (removeTrackedMessage idx chatId message_id, [Effect.deleteReq chatId message_id])

/-- scheduleNextPoll (source lines 231-234): arms the poll timer. -/
def scheduleNextPoll (st : EngineState) : EngineState := { st with pollTimeoutSet := true }

/-- Body of the delete loop of wipeMessages (source lines 202-205), folded over the
de-duplicated snapshot.  The accumulator carries the index, the emitted effects, and
the index snapshots at each suspension point (one per awaited delete). -/
def wipeDeleteStep (cfg : Config) (env : WipeEnv) (pinnedId : Option Nat)
    (acc : Index × List Effect × List Index) (messageId : Nat) :
    Index × List Effect × List Index :=
  if some messageId = pinnedId then acc
  else
    ((deleteMessage (env.deleteOutcome messageId) acc.1 cfg.chatId messageId).1,
     acc.2.1 ++ (deleteMessage (env.deleteOutcome messageId) acc.1 cfg.chatId messageId).2,
     acc.2.2 ++ [acc.1])

/-- Body of wipeMessages past the reentrancy guard (source lines 190-228).
Returns the final state, the emitted effects, and the engine states at the
operation's suspension points (the getPinnedMessageId await, each delete await,
and the confirmation await); all of these have isWiping = true. -/
def wipeCore (cfg : Config) (env : WipeEnv) (st : EngineState) :
    EngineState × List Effect × List EngineState :=
  let stW : EngineState := { st with isWiping := true, pollTimeoutSet := false }
  let pinnedId := getPinnedMessageId env
  let tracked := getBucket stW.index cfg.chatId
  let uniqueIds := uniqueInOrder tracked
  let r := uniqueIds.foldl (wipeDeleteStep cfg env pinnedId) (stW.index, [], [stW.index])
  let idx2 := resetTrackedMessages r.1 cfg.chatId pinnedId
  let conf :=
    match env.confirmOutcome with
    | some cid => (trackMessage idx2 cfg.chatId cid, [Effect.wipeConfirmSent cid])
    | none => (idx2, [])
  let stF := scheduleNextPoll { stW with index := conf.1, isWiping := false }
  (stF, r.2.1 ++ conf.2, (r.2.2 ++ [idx2]).map (fun i => { stW with index := i }))

/-- wipeMessages (source lines 184-229): reentrancy guard, clear the poll timer,
resolve the pin fresh, delete the de-duplicated non-pinned tracked ids, reset the
bucket to the pin, send and track the confirmation, clear the flag and rearm
polling. -/
def wipeMessages (cfg : Config) (env : WipeEnv) (st : EngineState) :
    EngineState × List Effect × List EngineState :=
  if st.isWiping then (st, [], [])
  else wipeCore cfg env st

/-- handleWipeCommand (source lines 237-239). -/
def handleWipeCommand (cfg : Config) (env : WipeEnv) (st : EngineState) :
    EngineState × List Effect × List EngineState :=
  wipeMessages cfg env st

/-- cron expression derivation of updateAutoWipeSchedule (source lines 276-294). -/
def cronExpressionFor (hours : Int) (time : String) : String :=
  let ps := jsSplitOnChar ':' time
  let hourS := jsNumberRender ps[0]?
  let minuteS := jsNumberRender ps[1]?
  if hours = 24 then minuteS ++ " " ++ hourS ++ " * * *"
  else if hours = 48 then minuteS ++ " " ++ hourS ++ " */2 * *"
  else if hours = 72 then minuteS ++ " " ++ hourS ++ " */3 * *"
  else minuteS ++ " */" ++ toString hours ++ " * * *"

/-- A rendered cron field is a valid numeric literal within the given bound. -/
def cronNumValid (s : String) (hi : Nat) : Bool :=
  !s.data.isEmpty && s.data.all Char.isDigit && decide (natOfDigits s.data ≤ hi)

/-- node-cron's pattern validation, restricted to the expressions this engine
generates.  node-cron expands step fields over their full range before checking,
so the `*/2`, `*/3` and `*/hourInterval` steps (hourInterval at least 1 at every
call site) always validate; the literal minute field must be a number in 0-59 and,
in the 24/48/72 branches, the literal hour field a number in 0-23 ("NaN" and
"undefined" renderings fail too).  cron.schedule throws exactly when this is
false. -/
def cronScheduleThrows (hours : Int) (time : String) : Bool :=
  let ps := jsSplitOnChar ':' time
  let hourS := jsNumberRender ps[0]?
  let minuteS := jsNumberRender ps[1]?
  if hours = 24 ∨ hours = 48 ∨ hours = 72 then
    !(cronNumValid minuteS 59 && cronNumValid hourS 23)
  else
    !(cronNumValid minuteS 59)

/-- updateAutoWipeSchedule (source lines 267-302): stops the previous job if any
(currentCronJob = null from then on), replaces the schedule, then calls
cron.schedule.  node-cron validates the expression and throws on out-of-range
fields; the throw happens after the stop and the schedule assignment but before
currentCronJob is reassigned, so a throwing call leaves currentCronJob null.
The Bool records whether the call threw. -/
def updateAutoWipeSchedule (hours : Int) (time : String) (st : EngineState) :
    EngineState × List Effect × Bool :=
  let stopEffs : List Effect :=
    match st.currentCronJob with
    | some e => [Effect.cronStopped e]
    | none => []
  let sched : AutoWipeSchedule := { hours := hours, time := time }
  let st1 := { st with autoWipeSchedule := sched, currentCronJob := none }
  let expr := cronExpressionFor hours time
  if cronScheduleThrows hours time then
    (st1, stopEffs, true)
  else
    ({ st1 with currentCronJob := some expr }, stopEffs ++ [Effect.cronStarted expr], false)

/-- State of the loaded module: the let-declarations (source lines 72-82) followed
by the module-level call updateAutoWipeSchedule(48, "03:00") (source line 305),
which runs on import regardless of configuration. -/
def declState : EngineState :=
  { nextUpdateOffset := 0, pollingActive := false, isWiping := false,
    pollTimeoutSet := false, index := emptyIndex,
    autoWipeSchedule := { hours := 48, time := "03:00" }, currentCronJob := none }

def initState : EngineState := (updateAutoWipeSchedule 48 "03:00" declState).1

/-- sendTempMessage (source lines 242-264): on data.ok the new message id is
tracked and its self-destruct delete is scheduled. -/
def sendTempMessage (env : PollEnv) (k : Nat) (st : EngineState) (chatId : Nat)
    (kind : MsgKind) (deleteAfterMs : Nat) : EngineState × List Effect :=
  match env.sendOutcome k with
  | some messageId =>
      ({ st with index := trackMessage st.index chatId messageId },
       [Effect.tempMsg chatId kind deleteAfterMs (some messageId),
        Effect.scheduleDelete chatId messageId deleteAfterMs])
  | none => (st, [Effect.tempMsg chatId kind deleteAfterMs none])

/-- sendPrivateMessage (source lines 115-134): returns the message id on data.ok,
null otherwise; it does not track the id. -/
def sendPrivateMessage (env : PollEnv) (k : Nat) (chat_id : Nat) :
    Option Nat × List Effect :=
  match env.sendOutcome k with
  | some mid => (some mid, [Effect.privateMsg chat_id (some mid)])
  | none => (none, [Effect.privateMsg chat_id none])

/-- The /setautowipe branch of the dispatch loop (source lines 424-442): split on a
space; with exactly 3 parts, parseInt the hours and accept when
hours in [1,168] and the time matches the two-digit:two-digit regex, otherwise
send the self-expiring usage error.  A NaN hours value fails the comparison chain
and lands in the usage branch.  When cron.schedule throws inside
updateAutoWipeSchedule, the success message is never sent and the exception
propagates out of the branch (the final Bool reports it); the returned Nat is the
send-outcome counter after the branch. -/
def handleSetAutoWipeCommand (env : PollEnv) (k : Nat) (st : EngineState) (chatId : Nat)
    (text : String) : EngineState × List Effect × Nat × Bool :=
  let parts := jsSplitOnSpace text
  if parts.length = 3 then
    match jsParseInt (parts.getD 1 "") with
    | some hours =>
        let time := parts.getD 2 ""
        if 1 ≤ hours ∧ hours ≤ 168 ∧ isHHMMshape time = true then
          let r1 := updateAutoWipeSchedule hours time st
          if r1.2.2 then
            (r1.1, r1.2.1, k, true)
          else
            let r2 := sendTempMessage env k r1.1 chatId MsgKind.setAutoWipeOk 10000
            (r2.1, r1.2.1 ++ r2.2, k + 1, false)
        else
          let r := sendTempMessage env k st chatId MsgKind.setAutoWipeUsage 15000
          (r.1, r.2, k + 1, false)
    | none =>
        let r := sendTempMessage env k st chatId MsgKind.setAutoWipeUsage 15000
        (r.1, r.2, k + 1, false)
  else
    let r := sendTempMessage env k st chatId MsgKind.setAutoWipeUsage 15000
    (r.1, r.2, k + 1, false)

/-- The acceptance condition of the /setautowipe branch, extracted verbatim from
source lines 426-431. -/
def validSetAutoWipeArgs (text : String) : Bool :=
  let parts := jsSplitOnSpace text
  decide (parts.length = 3) &&
    (match jsParseInt (parts.getD 1 "") with
     | some hours => decide (1 ≤ hours) && decide (hours ≤ 168) && isHHMMshape (parts.getD 2 "")
     | none => false)

/-- Accumulator of the dispatch loop of pollTelegram: engine state, emitted effects,
engine states at the suspension points passed so far, and the running count of
sendMessage calls (indexing PollEnv.sendOutcome). -/
structure DispatchAcc where
  st : EngineState
  effs : List Effect
  susp : List EngineState
  k : Nat

/-- Shared shape of the /status, /help, /dashboard and /website branches
(source lines 348-421): sendTempMessage plus the 2s self-delete of the trigger. -/
def tempCommandBranch (env : PollEnv) (acc : DispatchAcc) (st1 : EngineState)
    (chatId triggerId : Nat) (kind : MsgKind) (ttl : Nat) : DispatchAcc :=
  let r := sendTempMessage env acc.k st1 chatId kind ttl
  { st := r.1,
    effs := acc.effs ++ r.2 ++ [Effect.scheduleDelete chatId triggerId 2000],
    susp := acc.susp ++ [st1], k := acc.k + 1 }

/-- The unconditional tracking prelude of the dispatch loop (source lines 322-325):
track the incoming message id, and the freshly pinned id announced by a
pin-change service message (`msg.pinned_message?.message_id` truthiness). -/
def trackIncoming (st : EngineState) (chatId : Nat) (msg : Msg) : EngineState :=
  let st0 := { st with index := trackMessage st.index chatId msg.message_id }
  match msg.pinned_message with
  | some pm =>
      if pm ≠ 0 then { st0 with index := trackMessage st0.index chatId pm } else st0
  | none => st0

/-- Body of `for (const update of updates)` in pollTelegram (source lines 316-442).
The Bool reports an exception escaping the iteration (only cron.schedule inside
the /setautowipe branch can throw); on a throw the trigger message's 2s
self-delete at line 440 is never scheduled and no send was awaited in the
branch. -/
def dispatchUpdate (cfg : Config) (env : PollEnv) (acc : DispatchAcc) (u : Update) :
    DispatchAcc × Bool :=
  match jsOr u.message u.channel_post with
  | none => (acc, false)
  | some msg =>
    match msg.chatId with
    | none => (acc, false)
    | some chatId =>
      if chatId = 0 then (acc, false)
      else if chatId ≠ cfg.chatId then (acc, false)
      else
        let st1 := trackIncoming acc.st chatId msg
        let text := msg.text.map jsTrim
        if text = some "/wipe@Amsterdamnbot" then
          let r := wipeMessages cfg env.wipeEnv st1
          ({ st := r.1, effs := acc.effs ++ r.2.1, susp := acc.susp ++ r.2.2, k := acc.k },
           false)
        else if text = some "/password@Amsterdamnbot" then
          let r := sendPrivateMessage env acc.k msg.fromId
          let e2 : List Effect :=
            match r.1 with
            | some message_id => [Effect.scheduleDelete msg.fromId message_id 60000]
            | none => []
          ({ st := st1,
             effs := acc.effs ++ r.2 ++ e2 ++ [Effect.scheduleDelete chatId msg.message_id 2000],
             susp := acc.susp ++ [st1], k := acc.k + 1 },
           false)
        else if text = some "/status@Amsterdamnbot" then
          (tempCommandBranch env acc st1 chatId msg.message_id MsgKind.statusMsg 15000, false)
        else if text = some "/help@Amsterdamnbot" then
          (tempCommandBranch env acc st1 chatId msg.message_id MsgKind.helpMsg 20000, false)
        else if text = some "/dashboard@Amsterdamnbot" then
          (tempCommandBranch env acc st1 chatId msg.message_id MsgKind.dashboardMsg 15000, false)
        else if text = some "/website@Amsterdamnbot" then
          (tempCommandBranch env acc st1 chatId msg.message_id MsgKind.websiteMsg 15000, false)
        else if (match text with
                 | some t => jsStartsWith t "/setautowipe@Amsterdamnbot"
                 | none => false) then
          let r := handleSetAutoWipeCommand env acc.k st1 chatId (text.getD "")
          if r.2.2.2 then
            ({ st := r.1, effs := acc.effs ++ r.2.1, susp := acc.susp, k := r.2.2.1 }, true)
          else
            ({ st := r.1,
               effs := acc.effs ++ r.2.1 ++ [Effect.scheduleDelete chatId msg.message_id 2000],
               susp := acc.susp ++ [st1], k := r.2.2.1 },
             false)
        else
          ({ st := st1, effs := acc.effs, susp := acc.susp, k := acc.k }, false)

/-- The `for (const update of updates)` loop inside pollTelegram's try block: an
exception escaping one iteration aborts the loop (remaining updates are not
dispatched) and is caught at source line 444. -/
def dispatchList (cfg : Config) (env : PollEnv) : List Update → DispatchAcc → DispatchAcc × Bool
  | [], acc => (acc, false)
  | u :: t, acc =>
      if (dispatchUpdate cfg env acc u).2 then ((dispatchUpdate cfg env acc u).1, true)
      else dispatchList cfg env t (dispatchUpdate cfg env acc u).1

/-- pollTelegram (source lines 308-452): entry guard on both flags, set
pollingActive, await getUpdates(nextUpdateOffset, 100) (the env supplies the
batch), advance the cursor to the last update_id + 1 when the batch is
non-empty, dispatch the updates (an exception aborts the loop and is caught and
logged at line 444), then in the finally block clear pollingActive and rearm the
timer unless a wipe is in flight.  Returns final state, effects, and the engine
states at all suspension points. -/
def pollTelegram (cfg : Config) (env : PollEnv) (updates : List Update)
    (st : EngineState) : EngineState × List Effect × List EngineState :=
  if st.pollingActive || st.isWiping then (st, [], [])
  else
    let st1 := { st with pollingActive := true }
    let st2 :=
      match updates.getLast? with
      | some u => { st1 with nextUpdateOffset := u.update_id + 1 }
      | none => st1
    let acc := (dispatchList cfg env updates ⟨st2, [], [], 0⟩).1
    let st3 := { acc.st with pollingActive := false }
    let st4 := if st3.isWiping then st3 else scheduleNextPoll st3
    (st4, acc.effs, st1 :: acc.susp)

/-- startTelegramBot, the named export actually imported by the server entry point
(source lines 455-477): sends the online notification (with no config guard and
without inspecting the response), initializes the cursor from getUpdates(null, 1),
and schedules the first poll; only a thrown send aborts, caught at line 474. -/
def startTelegramBot (cfg : Config) (env : StartEnv) (st : EngineState) :
    EngineState × List Effect :=
  if env.onlineSendThrows then (st, [Effect.startupMsgReq])
  else
    let off :=
      match env.initialUpdates.getLast? with
      | some u => u.update_id + 1
      | none => 0
    (scheduleNextPoll { st with nextUpdateOffset := off }, [Effect.startupMsgReq])

/-- The legacy default-export startTelegramBot (source lines 7-44), modelled at its
boundary: with a missing token or chat id it warns and returns before sending the
startup notification or starting the 3-second polling interval; the Bool records
whether the engine started. -/
def startTelegramBotLegacy (cfg : Config) : Bool × List Effect :=
  if cfg.botTokenPresent && cfg.chatIdPresent then (true, [Effect.startupMsgReq])
  else (false, [])

/- ---------------- Top-level tick semantics ---------------- -/

/-- One timer-driven engine operation: a poll tick with its fetched batch, a wipe
trigger (cron job or handleWipeCommand), or a scheduled self-destruct delete
timer firing. -/
inductive Tick where
  | pollTick (env : PollEnv) (updates : List Update)
  | wipeTick (env : WipeEnv)
  | expiryTick (outcome : FetchOutcome) (chatId messageId : Nat)

def runTick (cfg : Config) (st : EngineState) : Tick → EngineState × List Effect × List EngineState
  | .pollTick env updates => pollTelegram cfg env updates st
  | .wipeTick env => wipeMessages cfg env st
  | .expiryTick o c m =>
      let r := deleteMessage o st.index c m
      ({ st with index := r.1 }, r.2, [st])

def runTicks (cfg : Config) : List Tick → EngineState → EngineState × List Effect × List EngineState
  | [], st => (st, [], [])
  | t :: ts, st =>
      let r1 := runTick cfg st t
      let r2 := runTicks cfg ts r1.1
      (r2.1, r1.2.1 ++ r2.2.1, r1.2.2 ++ [r1.1] ++ r2.2.2)

/-- Every engine state an observer can see along a tick sequence: the start state,
each suspension-point state, and each state between ticks. -/
def visitedStates (cfg : Config) (ticks : List Tick) (st : EngineState) : List EngineState :=
  st :: (runTicks cfg ticks st).2.2

/- ---------------- Derived views of effect traces ---------------- -/

/-- Message ids passed to deleteMessage along a trace. -/
def deleteReqIds (l : List Effect) : List Nat :=
  l.filterMap fun e =>
    match e with
    | Effect.deleteReq _ m => some m
    | _ => none

/-- Number of wipe-confirmation messages accepted by the platform along a trace. -/
def countConfirms (l : List Effect) : Nat :=
  (l.filter fun e =>
    match e with
    | Effect.wipeConfirmSent _ => true
    | _ => false).length

/-- Detects the self-expiring setautowipe usage-error message. -/
def isUsageError (e : Effect) : Bool :=
  match e with
  | Effect.tempMsg _ MsgKind.setAutoWipeUsage _ _ => true
  | _ => false

/-- The ids a wipe actually deletes: the de-duplicated snapshot minus the pin. -/
def wipeTargets (p : Option Nat) (l : List Nat) : List Nat :=
  l.filter fun m => !(decide (some m = p))

/-- Modelled from the spec: a "valid HH:MM 24-hour value" — two-digit hours 00-23
and minutes 00-59.  The source has no such check (it tests only the
two-digit:two-digit shape, line 431); this definition exists solely to state
that fact. -/
def specValidHHMM24 (s : String) : Bool :=
  isHHMMshape s &&
    (match jsSplitOnChar ':' s with
     | [hh, mm] => decide (natOfDigits hh.data ≤ 23) && decide (natOfDigits mm.data ≤ 59)
     | _ => false)

/- ---------------- Concrete fixtures ---------------- -/

/-- A fully configured engine with chat id 1. -/
def cfgA : Config := { botTokenPresent := true, chatIdPresent := true, chatId := 1 }

/-- Wipe environment of scenario A: pin resolves to 2, every delete fetch resolves,
the confirmation is accepted with id 5. -/
def wipeEnvA : WipeEnv :=
  { pinned_message_id := some 2, deleteOutcome := fun _ => .completed true,
    confirmOutcome := some 5 }

def pollEnvA : PollEnv := { wipeEnv := wipeEnvA, sendOutcome := fun _ => some 99 }

/-- Engine tracking ids [1,2,3,4] in chat 1. -/
def stA : EngineState := { initState with index := Index.set emptyIndex 1 [1, 2, 3, 4] }

/-- Engine with a wipe in flight. -/
def stWiping : EngineState := { initState with isWiping := true }

/-- A getUpdates batch entry carrying the /wipe command. -/
def wipeUpd : Update :=
  { update_id := 1,
    message := some { chatId := some 1, message_id := 10, fromId := 7,
                      text := some "/wipe@Amsterdamnbot", pinned_message := none },
    channel_post := none }

/-- A batch entry carrying /setautowipe with a shape-valid but out-of-range time. -/
def sawUpd : Update :=
  { update_id := 1,
    message := some { chatId := some 1, message_id := 10, fromId := 7,
                      text := some "/setautowipe@Amsterdamnbot 24 99:99", pinned_message := none },
    channel_post := none }

/-- A commandless batch entry with a low update_id. -/
def u2 : Update := { update_id := 2, message := none, channel_post := none }

/-- A commandless batch entry with update_id 5. -/
def u5 : Update := { update_id := 5, message := none, channel_post := none }

/-- A full bucket in chat 1 whose oldest entry is the pinned id 1. -/
def idxFull : Index := Index.set emptyIndex 1 (1 :: List.range' 2 499)

def cfgMissing : Config := { botTokenPresent := false, chatIdPresent := false, chatId := 1 }

def startEnvOk : StartEnv := { onlineSendThrows := false, initialUpdates := [] }

/- ---------------- Index lemmas ---------------- -/

theorem getBucket_set_self (idx : Index) (c : Nat) (b : List Nat) :
    getBucket (Index.set idx c b) c = b := by
  simp [getBucket, Index.set]

theorem getBucket_set_ne (idx : Index) (c c' : Nat) (b : List Nat) (h : c' ≠ c) :
    getBucket (Index.set idx c b) c' = getBucket idx c' := by
  simp [getBucket, Index.set, h]

theorem getBucket_del_self (idx : Index) (c : Nat) :
    getBucket (Index.del idx c) c = [] := by
  simp [getBucket, Index.del]

theorem getBucket_del_ne (idx : Index) (c c' : Nat) (h : c' ≠ c) :
    getBucket (Index.del idx c) c' = getBucket idx c' := by
  simp [getBucket, Index.del, h]

/-- A track call on a bucket strictly below the cap is a plain append, whether or
not the id is already present. -/
theorem trackMessage_append_of_small (idx : Index) (c m : Nat) (hm : m ≠ 0)
    (hlen : (getBucket idx c).length < MAX_TRACKED_PER_CHAT) :
    getBucket (trackMessage idx c m) c = getBucket idx c ++ [m] := by
  unfold trackMessage
  rw [if_neg hm]
  have hgt : ¬ ((getBucket idx c ++ [m]).length > MAX_TRACKED_PER_CHAT) := by
    simp only [List.length_append, List.length_cons, List.length_nil]
    omega
  simp only [hgt, if_neg, ite_false]
  exact getBucket_set_self ..

theorem getBucket_trackMessage_ne (idx : Index) (c c' m : Nat) (h : c' ≠ c) :
    getBucket (trackMessage idx c m) c' = getBucket idx c' := by
  unfold trackMessage
  split
  · rfl
  · exact getBucket_set_ne _ _ _ _ h

theorem getBucket_removeTracked_ne (idx : Index) (c c' m : Nat) (h : c' ≠ c) :
    getBucket (removeTrackedMessage idx c m) c' = getBucket idx c' := by
  unfold removeTrackedMessage
  split
  · rfl
  · exact getBucket_set_ne _ _ _ _ h

/- ---------------- C9: index bound ---------------- -/

/-- The index mutations the engine performs: track (ingestion, confirmations,
ephemeral sends), untrack (delete confirmations), and the post-wipe reset. -/
inductive IndexOp where
  | track (chatId messageId : Nat)
  | untrack (chatId messageId : Nat)
  | reset (chatId : Nat) (pinnedId : Option Nat)

def applyOp (idx : Index) : IndexOp → Index
  | .track c m => trackMessage idx c m
  | .untrack c m => removeTrackedMessage idx c m
  | .reset c p => resetTrackedMessages idx c p

def applyOps (ops : List IndexOp) : Index := ops.foldl applyOp emptyIndex

def Bounded (idx : Index) : Prop :=
  ∀ c, (getBucket idx c).length ≤ MAX_TRACKED_PER_CHAT

theorem bounded_track {idx : Index} (h : Bounded idx) (c m : Nat) :
    Bounded (trackMessage idx c m) := by
  intro c'
  by_cases hm : m = 0
  · simpa [trackMessage, hm] using h c'
  by_cases hc : c' = c
  · subst hc
    unfold trackMessage
    rw [if_neg hm]
    simp only [getBucket_set_self]
    split
    · next hgt => simp only [List.length_drop]; omega
    · next hgt => omega
  · rw [getBucket_trackMessage_ne _ _ _ _ hc]
    exact h c'

theorem bounded_untrack {idx : Index} (h : Bounded idx) (c m : Nat) :
    Bounded (removeTrackedMessage idx c m) := by
  intro c'
  by_cases hc : c' = c
  · subst hc
    unfold removeTrackedMessage
    split
    · exact h c'
    · next arr harr =>
        rw [getBucket_set_self]
        have h1 : (arr.erase m).length ≤ arr.length := List.length_erase_le m arr
        have h2 : (getBucket idx c') = arr := by simp [getBucket, harr]
        have h3 := h c'
        rw [h2] at h3
        omega
  · rw [getBucket_removeTracked_ne _ _ _ _ hc]
    exact h c'

theorem bounded_reset {idx : Index} (h : Bounded idx) (c : Nat) (p : Option Nat) :
    Bounded (resetTrackedMessages idx c p) := by
  intro c'
  unfold resetTrackedMessages
  match p with
  | none =>
      by_cases hc : c' = c
      · subst hc; simp [getBucket_del_self, MAX_TRACKED_PER_CHAT]
      · rw [getBucket_del_ne _ _ _ hc]; exact h c'
  | some q =>
      by_cases hq : q = 0
      · simp only [hq, ite_true]
        by_cases hc : c' = c
        · subst hc; simp [getBucket_del_self, MAX_TRACKED_PER_CHAT]
        · rw [getBucket_del_ne _ _ _ hc]; exact h c'
      · simp only [hq, ite_false]
        by_cases hc : c' = c
        · subst hc; simp [getBucket_set_self, MAX_TRACKED_PER_CHAT]
        · rw [getBucket_set_ne _ _ _ _ hc]; exact h c'

theorem bounded_applyOp {idx : Index} (h : Bounded idx) (op : IndexOp) :
    Bounded (applyOp idx op) := by
  cases op with
  | track c m => exact bounded_track h c m
  | untrack c m => exact bounded_untrack h c m
  | reset c p => exact bounded_reset h c p

theorem bounded_foldl : ∀ (ops : List IndexOp) (idx : Index), Bounded idx →
    Bounded (ops.foldl applyOp idx)
  | [], _, h => h
  | op :: ops, idx, h => bounded_foldl ops (applyOp idx op) (bounded_applyOp h op)

/-- C9: for every chat, after any number of track calls interleaved with untrack and
reset operations, the bucket length never exceeds MAX_TRACKED_PER_CHAT = 500. -/
theorem C9_theorem (ops : List IndexOp) (c : Nat) :
    (getBucket (applyOps ops) c).length ≤ MAX_TRACKED_PER_CHAT :=
  bounded_foldl ops emptyIndex (fun c' => by simp [getBucket, emptyIndex]) c

/- ---------------- C6: capacity trim is pin-oblivious ---------------- -/

/-- C6 fails on the code: with a full bucket whose oldest entry is the pinned id 1,
one further track call evicts the pinned id from the bucket. -/
theorem C6_counterexample :
    (1 : Nat) ∈ getBucket idxFull 1 ∧ (1 : Nat) ∉ getBucket (trackMessage idxFull 1 501) 1 := by
  decide

/-- C6 amended: the capacity trim evicts the oldest entries unconditionally,
without sparing the pin — if the pinned id p is the oldest entry of a full bucket
and occurs nowhere else, the next track call removes it. -/
theorem C6_amended (idx : Index) (c p mid : Nat) (rest : List Nat)
    (hb : getBucket idx c = p :: rest) (hlen : rest.length = 499)
    (hmid : mid ≠ 0) (hp1 : p ∉ rest) (hp2 : p ≠ mid) :
    getBucket (trackMessage idx c mid) c = rest ++ [mid] ∧
    p ∉ getBucket (trackMessage idx c mid) c := by
  have harr : getBucket idx c ++ [mid] = p :: (rest ++ [mid]) := by rw [hb]; rfl
  have hmain : getBucket (trackMessage idx c mid) c = rest ++ [mid] := by
    unfold trackMessage
    rw [if_neg hmid, getBucket_set_self, harr]
    have hgt : (p :: (rest ++ [mid])).length > MAX_TRACKED_PER_CHAT := by
      simp only [List.length_cons, List.length_append, List.length_cons, List.length_nil,
        MAX_TRACKED_PER_CHAT, hlen]
      omega
    rw [if_pos hgt]
    have hone : (p :: (rest ++ [mid])).length - MAX_TRACKED_PER_CHAT = 1 := by
      simp only [List.length_cons, List.length_append, List.length_cons, List.length_nil,
        MAX_TRACKED_PER_CHAT, hlen]
    rw [hone]
    rfl
  refine ⟨hmain, ?_⟩
  rw [hmain]
  simp only [List.mem_append, List.mem_singleton]
  rintro (hin | hin)
  · exact hp1 hin
  · exact hp2 hin

theorem C6_witness :
    getBucket (trackMessage idxFull 1 501) 1 = List.range' 2 499 ++ [501] ∧
    (1 : Nat) ∉ getBucket (trackMessage idxFull 1 501) 1 :=
  C6_amended idxFull 1 1 501 (List.range' 2 499) rfl (by decide) (by decide) (by decide)
    (by decide)

/- ---------------- C7: track has no duplicate check ---------------- -/

/-- C7 fails on the code: tracking the same id twice yields a duplicated bucket. -/
theorem C7_counterexample :
    getBucket (trackMessage (trackMessage emptyIndex 1 7) 1 7) 1 = [7, 7] ∧
    ¬ (getBucket (trackMessage (trackMessage emptyIndex 1 7) 1 7) 1).Nodup := by
  constructor
  · rfl
  · decide

/-- C7 amended: track appends unconditionally (no membership check) when the bucket
is below the cap, so already-present ids are appended again; the engine
de-duplicates only at wipe time (uniqueInOrder on the snapshot). -/
theorem C7_amended (idx : Index) (c m : Nat) (hm : m ≠ 0)
    (hlen : (getBucket idx c).length < MAX_TRACKED_PER_CHAT) :
    getBucket (trackMessage idx c m) c = getBucket idx c ++ [m] :=
  trackMessage_append_of_small idx c m hm hlen

theorem C7_witness :
    getBucket (trackMessage (Index.set emptyIndex 1 [7]) 1 7) 1 =
      getBucket (Index.set emptyIndex 1 [7]) 1 ++ [7] :=
  C7_amended (Index.set emptyIndex 1 [7]) 1 7 (by decide) (by decide)

/- ---------------- Wipe lemmas ---------------- -/

theorem deleteMessage_effs (o : FetchOutcome) (idx : Index) (c m : Nat) :
    (deleteMessage o idx c m).2 = [Effect.deleteReq c m] := by
  cases o <;> rfl

theorem foldl_wipeDeleteStep_effs (cfg : Config) (env : WipeEnv) (p : Option Nat) :
    ∀ (l : List Nat) (acc : Index × List Effect × List Index),
      (l.foldl (wipeDeleteStep cfg env p) acc).2.1 =
        acc.2.1 ++ (wipeTargets p l).map (fun m => Effect.deleteReq cfg.chatId m)
  | [], acc => by simp [wipeTargets]
  | a :: t, acc => by
      rw [List.foldl_cons, foldl_wipeDeleteStep_effs cfg env p t]
      by_cases hp : some a = p
      · have hstep : wipeDeleteStep cfg env p acc a = acc := by
          simp [wipeDeleteStep, hp]
        rw [hstep]
        simp [wipeTargets, hp]
      · have hstep : (wipeDeleteStep cfg env p acc a).2.1 =
            acc.2.1 ++ [Effect.deleteReq cfg.chatId a] := by
          simp [wipeDeleteStep, hp, deleteMessage_effs]
        rw [hstep]
        simp [wipeTargets, hp]

theorem mem_foldl_uniqueAux :
    ∀ (l acc : List Nat) (x : Nat),
      x ∈ l.foldl (fun acc x => if x ∈ acc then acc else acc ++ [x]) acc → x ∈ acc ∨ x ∈ l
  | [], _, _, h => Or.inl h
  | a :: t, acc, x, h => by
      rw [List.foldl_cons] at h
      rcases mem_foldl_uniqueAux t _ x h with h1 | h1
      · by_cases ha : a ∈ acc
        · rw [if_pos ha] at h1
          exact Or.inl h1
        · rw [if_neg ha] at h1
          rcases List.mem_append.mp h1 with h2 | h2
          · exact Or.inl h2
          · simp only [List.mem_singleton] at h2
            subst h2
            exact Or.inr (List.mem_cons_self ..)
      · exact Or.inr (List.mem_cons_of_mem _ h1)

theorem mem_of_mem_uniqueInOrder {x : Nat} {l : List Nat} (h : x ∈ uniqueInOrder l) :
    x ∈ l := by
  rcases mem_foldl_uniqueAux l [] x h with h1 | h1
  · exact absurd h1 (List.not_mem_nil x)
  · exact h1

theorem getPinnedMessageId_ne_zero {env : WipeEnv} {p : Nat}
    (h : getPinnedMessageId env = some p) : p ≠ 0 := by
  cases hm : env.pinned_message_id with
  | none => simp [getPinnedMessageId, hm] at h
  | some m =>
      by_cases hz : m = 0
      · simp [getPinnedMessageId, hm, hz] at h
      · simp only [getPinnedMessageId, hm, if_neg hz, Option.some.injEq] at h
        subst h
        exact hz

/-- Effect trace of a non-reentrant wipe run: one deleteMessage request per
non-pinned id of the de-duplicated snapshot, followed by the confirmation when the
platform accepted it. -/
theorem wipe_effs_eq (cfg : Config) (env : WipeEnv) (st : EngineState)
    (h : st.isWiping = false) :
    (wipeMessages cfg env st).2.1 =
      (wipeTargets (getPinnedMessageId env)
          (uniqueInOrder (getBucket st.index cfg.chatId))).map
        (fun m => Effect.deleteReq cfg.chatId m) ++
      (match env.confirmOutcome with
       | some cid => [Effect.wipeConfirmSent cid]
       | none => []) := by
  have hne : ¬ (st.isWiping = true) := by simp [h]
  unfold wipeMessages
  rw [if_neg hne]
  unfold wipeCore
  simp only [foldl_wipeDeleteStep_effs, List.nil_append]
  cases env.confirmOutcome <;> rfl

/-- The bucket right after the post-wipe reset: exactly the pin, or empty. -/
theorem bucket_reset (idx1 : Index) (c : Nat) (p? : Option Nat)
    (hp : ∀ q, p? = some q → q ≠ 0) :
    getBucket (resetTrackedMessages idx1 c p?) c = p?.toList := by
  cases p? with
  | none => simp [resetTrackedMessages, getBucket_del_self]
  | some q =>
      have hq := hp q rfl
      simp [resetTrackedMessages, hq, getBucket_set_self]

/-- The bucket after the reset followed by tracking the confirmation id. -/
theorem bucket_reset_track (idx1 : Index) (c cid : Nat) (p? : Option Nat)
    (hp : ∀ q, p? = some q → q ≠ 0) (hcz : cid ≠ 0) :
    getBucket (trackMessage (resetTrackedMessages idx1 c p?) c cid) c =
      p?.toList ++ [cid] := by
  have hlen : (getBucket (resetTrackedMessages idx1 c p?) c).length < MAX_TRACKED_PER_CHAT := by
    rw [bucket_reset idx1 c p? hp]
    cases p? <;> simp [MAX_TRACKED_PER_CHAT]
  rw [trackMessage_append_of_small _ _ _ hcz hlen, bucket_reset idx1 c p? hp]

/-- A non-reentrant wipe leaves the chat bucket holding exactly the pin (if any)
followed by the confirmation id (if accepted). -/
theorem wipe_index_bucket (cfg : Config) (env : WipeEnv) (st : EngineState)
    (h : st.isWiping = false) (hc : env.confirmOutcome ≠ some 0) :
    getBucket (wipeMessages cfg env st).1.index cfg.chatId =
      (getPinnedMessageId env).toList ++ env.confirmOutcome.toList := by
  have hne : ¬ (st.isWiping = true) := by simp [h]
  have hpz : ∀ q, getPinnedMessageId env = some q → q ≠ 0 :=
    fun _ hq => getPinnedMessageId_ne_zero hq
  unfold wipeMessages
  rw [if_neg hne]
  unfold wipeCore
  cases hco : env.confirmOutcome with
  | none =>
      simp only [hco, scheduleNextPoll]
      rw [bucket_reset _ _ _ hpz]
      simp
  | some cid =>
      have hcz : cid ≠ 0 := fun hz => hc (by rw [hco, hz])
      simp only [hco, scheduleNextPoll]
      rw [bucket_reset_track _ _ _ _ hpz hcz]
      simp

/-- A wipe never touches the getUpdates cursor. -/
theorem wipe_offset (cfg : Config) (env : WipeEnv) (st : EngineState) :
    (wipeMessages cfg env st).1.nextUpdateOffset = st.nextUpdateOffset := by
  unfold wipeMessages
  split
  · rfl
  · unfold wipeCore
    cases env.confirmOutcome <;> rfl

/-- A wipe never touches the schedule or the cron job. -/
theorem wipe_schedule (cfg : Config) (env : WipeEnv) (st : EngineState) :
    (wipeMessages cfg env st).1.autoWipeSchedule = st.autoWipeSchedule ∧
      (wipeMessages cfg env st).1.currentCronJob = st.currentCronJob := by
  unfold wipeMessages
  split
  · exact ⟨rfl, rfl⟩
  · unfold wipeCore
    cases env.confirmOutcome <;> exact ⟨rfl, rfl⟩

/-- Every suspension-point state of a wipe run has isWiping set. -/
theorem wipe_susp_isWiping (cfg : Config) (env : WipeEnv) (st : EngineState) :
    ∀ s' ∈ (wipeMessages cfg env st).2.2, s'.isWiping = true := by
  intro s' hs'
  unfold wipeMessages at hs'
  split at hs'
  · simp at hs'
  · unfold wipeCore at hs'
    simp only [List.mem_map] at hs'
    rcases hs' with ⟨i, _, rfl⟩
    rfl

theorem deleteReqIds_append (l1 l2 : List Effect) :
    deleteReqIds (l1 ++ l2) = deleteReqIds l1 ++ deleteReqIds l2 := by
  unfold deleteReqIds
  exact List.filterMap_append ..

theorem deleteReqIds_map (c : Nat) (l : List Nat) :
    deleteReqIds (l.map (fun m => Effect.deleteReq c m)) = l := by
  induction l with
  | nil => rfl
  | cons a t ih =>
      simp only [List.map_cons, deleteReqIds, List.filterMap_cons] at ih ⊢
      rw [ih]

theorem countConfirms_append (l1 l2 : List Effect) :
    countConfirms (l1 ++ l2) = countConfirms l1 + countConfirms l2 := by
  unfold countConfirms
  rw [List.filter_append, List.length_append]

theorem countConfirms_map_deleteReq (c : Nat) (l : List Nat) :
    countConfirms (l.map (fun m => Effect.deleteReq c m)) = 0 := by
  induction l with
  | nil => rfl
  | cons a t ih =>
      simp only [List.map_cons, countConfirms, List.filter_cons] at ih ⊢
      exact ih

/- ---------------- C2: wipe postcondition ---------------- -/

/-- C2 fails on the code: in scenario A (tracked [1,2,3,4], pinned 2) with the
confirmation accepted as id 5, the bucket immediately after wipeMessages returns
is [2, 5], not exactly the pin — the wipe tracks its own confirmation message. -/
theorem C2_counterexample :
    getBucket (wipeMessages cfgA wipeEnvA stA).1.index cfgA.chatId = [2, 5] ∧
    ([2, 5] : List Nat) ≠ [2] := by
  exact ⟨by decide, by decide⟩

/-- C2 amended: the pin resolved at wipe start is never passed to deleteMessage,
the delete batch is exactly the de-duplicated snapshot minus the pin, and after
the wipe completes the bucket holds the pin (if any) followed by the confirmation
id whenever the confirmation send was accepted. -/
theorem C2_amended (cfg : Config) (env : WipeEnv) (st : EngineState)
    (h : st.isWiping = false) (hc : env.confirmOutcome ≠ some 0) :
    (∀ p, getPinnedMessageId env = some p →
        Effect.deleteReq cfg.chatId p ∉ (wipeMessages cfg env st).2.1) ∧
    deleteReqIds (wipeMessages cfg env st).2.1 =
      wipeTargets (getPinnedMessageId env) (uniqueInOrder (getBucket st.index cfg.chatId)) ∧
    getBucket (wipeMessages cfg env st).1.index cfg.chatId =
      (getPinnedMessageId env).toList ++ env.confirmOutcome.toList := by
  refine ⟨?_, ?_, wipe_index_bucket cfg env st h hc⟩
  · intro p hp hmem
    rw [wipe_effs_eq cfg env st h] at hmem
    rcases List.mem_append.mp hmem with h1 | h1
    · rcases List.mem_map.mp h1 with ⟨m, hm, heq⟩
      have hmp : m = p := by
        injection heq with hA hB
      subst hmp
      rw [hp] at hm
      unfold wipeTargets at hm
      rcases List.mem_filter.mp hm with ⟨_, hfalse⟩
      simp at hfalse
    · rcases henv : env.confirmOutcome with _ | cid <;> rw [henv] at h1 <;> simp at h1
  · rw [wipe_effs_eq cfg env st h, deleteReqIds_append, deleteReqIds_map]
    have hz : deleteReqIds
        (match env.confirmOutcome with
         | some cid => [Effect.wipeConfirmSent cid]
         | none => []) = [] := by
      rcases env.confirmOutcome with _ | cid <;> rfl
    rw [hz, List.append_nil]

theorem C2_witness :
    (∀ p, getPinnedMessageId wipeEnvA = some p →
        Effect.deleteReq cfgA.chatId p ∉ (wipeMessages cfgA wipeEnvA stA).2.1) ∧
    deleteReqIds (wipeMessages cfgA wipeEnvA stA).2.1 =
      wipeTargets (getPinnedMessageId wipeEnvA)
        (uniqueInOrder (getBucket stA.index cfgA.chatId)) ∧
    getBucket (wipeMessages cfgA wipeEnvA stA).1.index cfgA.chatId =
      (getPinnedMessageId wipeEnvA).toList ++ wipeEnvA.confirmOutcome.toList :=
  C2_amended cfgA wipeEnvA stA rfl (by decide)

/- ---------------- C4: wipe non-reentrancy ---------------- -/

/-- C4 holds: a wipe invoked while one is in flight is a no-op (identical state, no
deletions, no messages); every suspension-point state of a running wipe rejects a
second call the same way; and a running wipe whose confirmation is accepted sends
exactly one confirmation — so two concurrent wipe triggers yield exactly one. -/
theorem C4_theorem (cfg : Config) (env env2 : WipeEnv) (st st2 : EngineState)
    (h : st.isWiping = true) (h2 : st2.isWiping = false) :
    wipeMessages cfg env st = (st, [], []) ∧
    (∀ s' ∈ (wipeMessages cfg env2 st2).2.2, wipeMessages cfg env s' = (s', [], [])) ∧
    (env2.confirmOutcome.isSome = true →
      countConfirms (wipeMessages cfg env2 st2).2.1 = 1) := by
  refine ⟨?_, ?_, ?_⟩
  · unfold wipeMessages
    rw [if_pos h]
  · intro s' hs'
    have hw := wipe_susp_isWiping cfg env2 st2 s' hs'
    unfold wipeMessages
    rw [if_pos hw]
  · intro hsome
    rw [wipe_effs_eq cfg env2 st2 h2, countConfirms_append, countConfirms_map_deleteReq]
    rcases henv : env2.confirmOutcome with _ | cid
    · rw [henv] at hsome
      simp at hsome
    · rfl

theorem C4_witness :
    wipeMessages cfgA wipeEnvA stWiping = (stWiping, [], []) ∧
    (∀ s' ∈ (wipeMessages cfgA wipeEnvA stA).2.2,
        wipeMessages cfgA wipeEnvA s' = (s', [], [])) ∧
    (wipeEnvA.confirmOutcome.isSome = true →
      countConfirms (wipeMessages cfgA wipeEnvA stA).2.1 = 1) :=
  C4_theorem cfgA wipeEnvA wipeEnvA stWiping stA rfl rfl

/- ---------------- C10: deleteMessage ignores the response body ---------------- -/

/-- C10 holds: deleteMessage untracks the id whenever the fetch resolved, for a
success and a platform-rejection response alike; only a thrown fetch leaves the
index unchanged; and a wipe never issues a delete for an id that is not in the
chat's bucket, so an id untracked by a rejected delete is never retried. -/
theorem C10_theorem :
    (∀ (ok : Bool) (idx : Index) (c m : Nat),
        (deleteMessage (FetchOutcome.completed ok) idx c m).1 = removeTrackedMessage idx c m) ∧
    (∀ (idx : Index) (c m : Nat), (deleteMessage FetchOutcome.threw idx c m).1 = idx) ∧
    (∀ (cfg : Config) (env : WipeEnv) (st : EngineState) (m : Nat),
        m ∉ getBucket st.index cfg.chatId →
        Effect.deleteReq cfg.chatId m ∉ (wipeMessages cfg env st).2.1) := by
  refine ⟨fun _ _ _ _ => rfl, fun _ _ _ => rfl, ?_⟩
  intro cfg env st m hm hmem
  by_cases hw : st.isWiping = true
  · unfold wipeMessages at hmem
    rw [if_pos hw] at hmem
    simp at hmem
  · have h : st.isWiping = false := by simp at hw; exact hw
    rw [wipe_effs_eq cfg env st h] at hmem
    rcases List.mem_append.mp hmem with h1 | h1
    · rcases List.mem_map.mp h1 with ⟨m', hm', heq⟩
      have hmm : m' = m := by
        injection heq with hA hB
      subst hmm
      unfold wipeTargets at hm'
      exact hm (mem_of_mem_uniqueInOrder (List.mem_of_mem_filter hm'))
    · rcases henv : env.confirmOutcome with _ | cid <;> rw [henv] at h1 <;> simp at h1

theorem C10_witness :
    Effect.deleteReq cfgA.chatId 9 ∉ (wipeMessages cfgA wipeEnvA stA).2.1 :=
  C10_theorem.2.2 cfgA wipeEnvA stA 9 (by decide)

/- ---------------- Poll-loop lemmas ---------------- -/

theorem sendTemp_offset (env : PollEnv) (k : Nat) (st : EngineState) (c : Nat)
    (kind : MsgKind) (ttl : Nat) :
    (sendTempMessage env k st c kind ttl).1.nextUpdateOffset = st.nextUpdateOffset := by
  unfold sendTempMessage
  cases env.sendOutcome k <;> rfl

theorem sendTemp_schedule (env : PollEnv) (k : Nat) (st : EngineState) (c : Nat)
    (kind : MsgKind) (ttl : Nat) :
    (sendTempMessage env k st c kind ttl).1.autoWipeSchedule = st.autoWipeSchedule := by
  unfold sendTempMessage
  cases env.sendOutcome k <;> rfl

theorem sendTemp_cron (env : PollEnv) (k : Nat) (st : EngineState) (c : Nat)
    (kind : MsgKind) (ttl : Nat) :
    (sendTempMessage env k st c kind ttl).1.currentCronJob = st.currentCronJob := by
  unfold sendTempMessage
  cases env.sendOutcome k <;> rfl

theorem sendTemp_usage_any (env : PollEnv) (k : Nat) (st : EngineState) (c ttl : Nat) :
    ((sendTempMessage env k st c MsgKind.setAutoWipeUsage ttl).2).any isUsageError = true := by
  unfold sendTempMessage
  cases env.sendOutcome k <;> rfl

theorem updateAWS_offset (hours : Int) (time : String) (st : EngineState) :
    (updateAutoWipeSchedule hours time st).1.nextUpdateOffset = st.nextUpdateOffset := by
  by_cases hth : cronScheduleThrows hours time = true <;>
    simp [updateAutoWipeSchedule, hth]

theorem updateAWS_schedule (hours : Int) (time : String) (st : EngineState) :
    (updateAutoWipeSchedule hours time st).1.autoWipeSchedule =
      { hours := hours, time := time } := by
  by_cases hth : cronScheduleThrows hours time = true <;>
    simp [updateAutoWipeSchedule, hth]

theorem updateAWS_cron (hours : Int) (time : String) (st : EngineState) :
    (updateAutoWipeSchedule hours time st).1.currentCronJob =
      (if cronScheduleThrows hours time = true then none
       else some (cronExpressionFor hours time)) := by
  by_cases hth : cronScheduleThrows hours time = true <;>
    simp [updateAutoWipeSchedule, hth]

theorem updateAWS_threw (hours : Int) (time : String) (st : EngineState) :
    (updateAutoWipeSchedule hours time st).2.2 = cronScheduleThrows hours time := by
  by_cases hth : cronScheduleThrows hours time = true
  · simp [updateAutoWipeSchedule, hth]
  · have hf : cronScheduleThrows hours time = false := by simpa using hth
    simp [updateAutoWipeSchedule, hf]

theorem handleSAW_offset (env : PollEnv) (k : Nat) (st : EngineState) (c : Nat) (t : String) :
    (handleSetAutoWipeCommand env k st c t).1.nextUpdateOffset = st.nextUpdateOffset := by
  simp only [handleSetAutoWipeCommand]
  by_cases h3 : (jsSplitOnSpace t).length = 3
  · simp only [h3, if_true]
    rcases hp : jsParseInt ((jsSplitOnSpace t).getD 1 "") with _ | hours
    · simp [hp, sendTemp_offset]
    · simp only [hp]
      by_cases hcond : 1 ≤ hours ∧ hours ≤ 168 ∧
          isHHMMshape ((jsSplitOnSpace t).getD 2 "") = true
      · rw [if_pos hcond]
        split <;> simp only [sendTemp_offset, updateAWS_offset]
      · rw [if_neg hcond]
        simp only [sendTemp_offset]
  · simp [h3, sendTemp_offset]

theorem trackIncoming_offset (st : EngineState) (c : Nat) (msg : Msg) :
    (trackIncoming st c msg).nextUpdateOffset = st.nextUpdateOffset := by
  unfold trackIncoming
  rcases msg.pinned_message with _ | pm
  · rfl
  · by_cases hpm : pm = 0 <;> simp [hpm]

theorem dispatchUpdate_offset (cfg : Config) (env : PollEnv) (acc : DispatchAcc) (u : Update) :
    (dispatchUpdate cfg env acc u).1.st.nextUpdateOffset = acc.st.nextUpdateOffset := by
  rcases hj : jsOr u.message u.channel_post with _ | msg
  · simp [dispatchUpdate, hj]
  · rcases hc : msg.chatId with _ | chatId
    · simp [dispatchUpdate, hj, hc]
    · simp only [dispatchUpdate, hj, hc]
      by_cases h0 : chatId = 0
      · rw [if_pos h0]
      · rw [if_neg h0]
        by_cases h1 : chatId ≠ cfg.chatId
        · rw [if_pos h1]
        · rw [if_neg h1]
          by_cases t1 : msg.text.map jsTrim = some "/wipe@Amsterdamnbot"
          · rw [if_pos t1]
            simp [wipe_offset, trackIncoming_offset]
          · rw [if_neg t1]
            by_cases t2 : msg.text.map jsTrim = some "/password@Amsterdamnbot"
            · rw [if_pos t2]
              simp [trackIncoming_offset]
            · rw [if_neg t2]
              by_cases t3 : msg.text.map jsTrim = some "/status@Amsterdamnbot"
              · rw [if_pos t3]
                simp [tempCommandBranch, sendTemp_offset, trackIncoming_offset]
              · rw [if_neg t3]
                by_cases t4 : msg.text.map jsTrim = some "/help@Amsterdamnbot"
                · rw [if_pos t4]
                  simp [tempCommandBranch, sendTemp_offset, trackIncoming_offset]
                · rw [if_neg t4]
                  by_cases t5 : msg.text.map jsTrim = some "/dashboard@Amsterdamnbot"
                  · rw [if_pos t5]
                    simp [tempCommandBranch, sendTemp_offset, trackIncoming_offset]
                  · rw [if_neg t5]
                    by_cases t6 : msg.text.map jsTrim = some "/website@Amsterdamnbot"
                    · rw [if_pos t6]
                      simp [tempCommandBranch, sendTemp_offset, trackIncoming_offset]
                    · rw [if_neg t6]
                      by_cases t7 : (match msg.text.map jsTrim with
                        | some t => jsStartsWith t "/setautowipe@Amsterdamnbot"
                        | none => false) = true
                      · rw [if_pos t7]
                        split <;> simp [handleSAW_offset, trackIncoming_offset]
                      · rw [if_neg t7]
                        simp [trackIncoming_offset]

theorem dispatchList_offset (cfg : Config) (env : PollEnv) :
    ∀ (us : List Update) (acc : DispatchAcc),
      (((dispatchList cfg env us acc).1).st).nextUpdateOffset = acc.st.nextUpdateOffset
  | [], _ => rfl
  | u :: t, acc => by
      unfold dispatchList
      split
      · exact dispatchUpdate_offset cfg env acc u
      · rw [dispatchList_offset cfg env t _, dispatchUpdate_offset]

/- ---------------- C1: mutual exclusion ---------------- -/

/-- C1 fails on the code: a poll tick whose batch carries the /wipe command runs
the wipe while pollingActive is still true, so a reachable (suspension-point)
state has both flags set simultaneously. -/
theorem C1_counterexample :
    (visitedStates cfgA [Tick.pollTick pollEnvA [wipeUpd]] initState).any
      (fun s => s.pollingActive && s.isWiping) = true := by
  decide

/-- C1 amended: the exclusion holds in one direction only — a poll tick beginning
while either flag is set is a complete no-op (state unchanged, no effects, no
suspension points); the converse fails because a wipe dispatched from within a
poll tick runs with both flags set. -/
theorem C1_amended (cfg : Config) (env : PollEnv) (updates : List Update) (st : EngineState)
    (h : st.pollingActive = true ∨ st.isWiping = true) :
    pollTelegram cfg env updates st = (st, [], []) := by
  unfold pollTelegram
  rw [if_pos]
  rcases h with h | h <;> simp [h]

theorem C1_witness :
    pollTelegram cfgA pollEnvA [] { initState with pollingActive := true } =
      ({ initState with pollingActive := true }, [], []) :=
  C1_amended cfgA pollEnvA [] _ (Or.inl rfl)

/- ---------------- C3: cursor advance ---------------- -/

/-- C3 fails on the code: the advance has no strictly-greater guard — it
unconditionally writes last update_id + 1, so a batch with a low update_id moves
the cursor backwards (here from 10 down to 3). -/
theorem C3_counterexample :
    (pollTelegram cfgA pollEnvA [u2] { initState with nextUpdateOffset := 10 }).1.nextUpdateOffset
      < ({ initState with nextUpdateOffset := 10 } : EngineState).nextUpdateOffset := by
  decide

/-- C3 amended: the advance is unconditional (nextUpdateOffset := last update_id + 1
for a non-empty batch, with no comparison against the current value), so the
cursor is non-decreasing only under the platform guarantee that every update in a
batch fetched at the current offset has update_id at least that offset. -/
theorem C3_amended (cfg : Config) (env : PollEnv) (updates : List Update) (st : EngineState)
    (h : ∀ u ∈ updates, st.nextUpdateOffset ≤ u.update_id) :
    st.nextUpdateOffset ≤ (pollTelegram cfg env updates st).1.nextUpdateOffset := by
  unfold pollTelegram
  split
  · exact Nat.le_refl _
  · rcases hl : updates.getLast? with _ | u
    · simp only [hl]
      split <;> simp [scheduleNextPoll, dispatchList_offset]
    · have hu : u ∈ updates := List.mem_of_mem_getLast? (by simp [hl])
      have hle := h u hu
      simp only [hl]
      split <;> simp [scheduleNextPoll, dispatchList_offset] <;> omega

theorem C3_witness :
    ({ initState with nextUpdateOffset := 3 } : EngineState).nextUpdateOffset ≤
      (pollTelegram cfgA pollEnvA [u5] { initState with nextUpdateOffset := 3 }).1.nextUpdateOffset :=
  C3_amended cfgA pollEnvA [u5] { initState with nextUpdateOffset := 3 } (by decide)

/- ---------------- C5: setautowipe validation ---------------- -/

/-- C5 fails on the code: the time argument is validated only against the
two-digit:two-digit shape, so "99:99" — not a valid 24-hour clock value — passes
validation, takes the accept path, and mutates the schedule; node-cron then
rejects the derived expression, so the call throws after the old job was stopped,
leaving no cron job at all, and no usage-error message is ever shown. -/
theorem C5_counterexample :
    specValidHHMM24 "99:99" = false ∧
    (pollTelegram cfgA pollEnvA [sawUpd] initState).1.autoWipeSchedule =
      { hours := 24, time := "99:99" } ∧
    initState.autoWipeSchedule = { hours := 48, time := "03:00" } ∧
    (pollTelegram cfgA pollEnvA [sawUpd] initState).1.currentCronJob = none ∧
    ((pollTelegram cfgA pollEnvA [sawUpd] initState).2.1.any isUsageError) = false :=
  ⟨by decide, by decide, by decide, by decide, by decide⟩

/-- C5 amended: wrong arity, unparsable or out-of-range hours, and times failing
the two-digit:two-digit regex are rejected with the self-expiring usage message
and leave the schedule and cron job unchanged.  But validation differs from the
claim on accepted inputs: parseInt also accepts 0x-prefixed hex hours (0x10 is
hours 16), and the time is checked only for the digit shape, not as a real
24-hour value.  Every validated input mutates autoWipeSchedule; the cron job is
then replaced when node-cron accepts the derived expression, while for
out-of-cron-range times (such as 99:99) cron.schedule throws after the old job
was stopped, leaving currentCronJob null, with the exception escaping the
branch. -/
theorem C5_amended (env : PollEnv) (k : Nat) (st : EngineState) (chatId : Nat)
    (tInv tVal : String) (h : Int)
    (hInv : validSetAutoWipeArgs tInv = false)
    (hVal : validSetAutoWipeArgs tVal = true)
    (hParse : jsParseInt ((jsSplitOnSpace tVal).getD 1 "") = some h) :
    ((handleSetAutoWipeCommand env k st chatId tInv).1.autoWipeSchedule = st.autoWipeSchedule ∧
     (handleSetAutoWipeCommand env k st chatId tInv).1.currentCronJob = st.currentCronJob ∧
     ((handleSetAutoWipeCommand env k st chatId tInv).2.1.any isUsageError) = true) ∧
    ((handleSetAutoWipeCommand env k st chatId tVal).1.autoWipeSchedule =
        { hours := h, time := (jsSplitOnSpace tVal).getD 2 "" } ∧
     (handleSetAutoWipeCommand env k st chatId tVal).1.currentCronJob =
        (if cronScheduleThrows h ((jsSplitOnSpace tVal).getD 2 "") = true then none
         else some (cronExpressionFor h ((jsSplitOnSpace tVal).getD 2 ""))) ∧
     (handleSetAutoWipeCommand env k st chatId tVal).2.2.2 =
        cronScheduleThrows h ((jsSplitOnSpace tVal).getD 2 "")) := by
  constructor
  · simp only [handleSetAutoWipeCommand]
    by_cases h3 : (jsSplitOnSpace tInv).length = 3
    · simp only [h3, eq_self_iff_true, if_true]
      rcases hp : jsParseInt ((jsSplitOnSpace tInv).getD 1 "") with _ | hours
      · simp [hp, sendTemp_schedule, sendTemp_cron, sendTemp_usage_any]
      · have hcond : ¬(1 ≤ hours ∧ hours ≤ 168 ∧
            isHHMMshape ((jsSplitOnSpace tInv).getD 2 "") = true) := by
          intro hcond
          have htrue : validSetAutoWipeArgs tInv = true := by
            simp only [validSetAutoWipeArgs, hp, Bool.and_eq_true, decide_eq_true_eq]
            exact ⟨h3, ⟨hcond.1, hcond.2.1⟩, hcond.2.2⟩
          rw [htrue] at hInv
          exact absurd hInv (by decide)
        simp only [hp]
        rw [if_neg hcond]
        simp [sendTemp_schedule, sendTemp_cron, sendTemp_usage_any]
    · simp [h3, sendTemp_schedule, sendTemp_cron, sendTemp_usage_any]
  · have hv := hVal
    simp only [validSetAutoWipeArgs] at hv
    rw [hParse] at hv
    simp only [Bool.and_eq_true, decide_eq_true_eq] at hv
    obtain ⟨h3, ⟨h1, h2⟩, hsh⟩ := hv
    have hcond : 1 ≤ h ∧ h ≤ 168 ∧ isHHMMshape ((jsSplitOnSpace tVal).getD 2 "") = true :=
      ⟨h1, h2, hsh⟩
    simp only [handleSetAutoWipeCommand, h3, eq_self_iff_true, if_true, hParse]
    rw [if_pos hcond, updateAWS_threw]
    by_cases hth : cronScheduleThrows h ((jsSplitOnSpace tVal).getD 2 "") = true
    · refine ⟨?_, ?_, ?_⟩
      · simp only [if_pos hth, updateAWS_schedule]
      · simp only [if_pos hth, updateAWS_cron]
      · simp only [if_pos hth]
        exact hth.symm
    · have hf : cronScheduleThrows h ((jsSplitOnSpace tVal).getD 2 "") = false := by
        simpa using hth
      refine ⟨?_, ?_, ?_⟩
      · simp only [if_neg hth, sendTemp_schedule, updateAWS_schedule]
      · simp only [if_neg hth, sendTemp_cron, updateAWS_cron]
      · simp only [if_neg hth]
        exact hf.symm

theorem C5_witness :
    ((handleSetAutoWipeCommand pollEnvA 0 initState 1
        "/setautowipe@Amsterdamnbot 24").1.autoWipeSchedule = initState.autoWipeSchedule ∧
     (handleSetAutoWipeCommand pollEnvA 0 initState 1
        "/setautowipe@Amsterdamnbot 24").1.currentCronJob = initState.currentCronJob ∧
     ((handleSetAutoWipeCommand pollEnvA 0 initState 1
        "/setautowipe@Amsterdamnbot 24").2.1.any isUsageError) = true) ∧
    ((handleSetAutoWipeCommand pollEnvA 0 initState 1
        "/setautowipe@Amsterdamnbot 0x10 14:30").1.autoWipeSchedule =
        { hours := 16,
          time := (jsSplitOnSpace "/setautowipe@Amsterdamnbot 0x10 14:30").getD 2 "" } ∧
     (handleSetAutoWipeCommand pollEnvA 0 initState 1
        "/setautowipe@Amsterdamnbot 0x10 14:30").1.currentCronJob =
        (if cronScheduleThrows 16
              ((jsSplitOnSpace "/setautowipe@Amsterdamnbot 0x10 14:30").getD 2 "") = true
         then none
         else some (cronExpressionFor 16
           ((jsSplitOnSpace "/setautowipe@Amsterdamnbot 0x10 14:30").getD 2 ""))) ∧
     (handleSetAutoWipeCommand pollEnvA 0 initState 1
        "/setautowipe@Amsterdamnbot 0x10 14:30").2.2.2 =
        cronScheduleThrows 16
          ((jsSplitOnSpace "/setautowipe@Amsterdamnbot 0x10 14:30").getD 2 "")) :=
  C5_amended pollEnvA 0 initState 1 "/setautowipe@Amsterdamnbot 24"
    "/setautowipe@Amsterdamnbot 0x10 14:30" 16 (by decide) (by decide) (by decide)

/- ---------------- C8: missing configuration ---------------- -/

/-- C8 fails on the code: the named-export startTelegramBot actually used by the
server has no configuration guard — with both credentials missing it still
attempts the startup message and (when the send does not throw) schedules
polling; and the auto-wipe cron job is created at module load regardless. -/
theorem C8_counterexample :
    (startTelegramBot cfgMissing startEnvOk initState).1.pollTimeoutSet = true ∧
    initState.currentCronJob = some "0 3 */2 * *" :=
  ⟨by decide, by decide⟩

/-- C8 amended: only the legacy default-export startTelegramBot refuses to start on
missing configuration (no startup send, engine not started); the active
named-export startTelegramBot schedules polling whenever the startup send does
not throw, independently of configuration, and the module-level cron job exists
regardless. -/
theorem C8_amended (cfg : Config) (env : StartEnv) (st : EngineState)
    (hmiss : cfg.botTokenPresent = false ∨ cfg.chatIdPresent = false)
    (hok : env.onlineSendThrows = false) :
    startTelegramBotLegacy cfg = (false, []) ∧
    (startTelegramBot cfg env st).1.pollTimeoutSet = true ∧
    initState.currentCronJob.isSome = true := by
  refine ⟨?_, ?_, by decide⟩
  · unfold startTelegramBotLegacy
    rcases hmiss with hm | hm <;> simp [hm]
  · unfold startTelegramBot
    rw [if_neg (by simp [hok])]
    rfl

theorem C8_witness :
    startTelegramBotLegacy cfgMissing = (false, []) ∧
    (startTelegramBot cfgMissing startEnvOk initState).1.pollTimeoutSet = true ∧
    initState.currentCronJob.isSome = true :=
  C8_amended cfgMissing startEnvOk initState (Or.inl rfl) rfl

end TelegramWiper
